import Mathlib

/-!
Verification of the vertex-source module of the glium graphics wrapper
(src/vertex/mod.rs), shallowly embedded in Lean 4.

The module defines the tagged union `VerticesSource`, conversions into it
from buffer references, per-instance wrappers and phantom markers, the
`MultiVerticesSource` composition of up to seven sources (generated by the
recursive macro `impl_for_tuple`), and the default implementations of
`Vertex::is_supported` and `Attribute::is_supported`.  Collaborator code
that is not part of the module (the format registry, the buffer conversion,
the draw-time consistency checks and the transform-feedback session) is
modelled from the specification where a claim needs it; such definitions
carry a doc comment saying so.
-/

namespace Glium

/-- Modelled from the spec: `AttributeType` is declared in src/vertex/format.rs,
which is not part of the sources; the spec describes it as a closed enumeration
of GPU-recognized scalar/vector/matrix element kinds.  A representative closed
enumeration is used here. -/
inductive AttributeType where
  | I8
  | I16
  | I32
  | I64
  | U8
  | U16
  | U32
  | U64
  | F16
  | F32
  | F64
  | F32F32
  | F32F32F32
  | F32F32F32F32
  | F64F64
  | F64F64F64
  | F64F64F64F64
  | F32x2x2
  | F32x3x3
  | F32x4x4
deriving DecidableEq, Repr

/-- Modelled from the spec: the capability source (`CapabilitiesSource`) is an
external collaborator; the spec describes it as an externally supplied
descriptor queryable for whether a given attribute type is supported. -/
structure Caps where
  supports : AttributeType → Bool

/-- Modelled from the spec: `AttributeType::is_supported` is declared in
src/vertex/format.rs, which is not part of the sources; per the spec it is a
pure query of the capability descriptor for the given type. -/
def AttributeType.is_supported (ty : AttributeType) (caps : Caps) : Bool :=
  caps.supports ty

/-- One element of a `VertexFormat`: the spec describes each attribute
descriptor as a tuple (attribute name, byte offset, type, per-instance
divisor).  The code of `Vertex::is_supported` destructures it as a 4-tuple
whose third component is the `AttributeType`. -/
structure AttributeBinding where
  name : String
  offset : Nat
  ty : AttributeType
  divisor : Nat
deriving DecidableEq

/-- Ordered sequence of attribute descriptors describing one vertex struct. -/
abbrev VertexFormat : Type := List AttributeBinding

/-- Modelled from the spec: `BufferAnySlice` comes from the buffer collaborator
(crate::buffer), not part of the sources; it is a borrowed range of GPU memory
with an element-count query.  It is modelled as an opaque identity plus its
element count. -/
structure BufferAnySlice where
  id : Nat
  elements_count : Nat
deriving DecidableEq

/-- Embeds `enum VerticesSource` (src/vertex/mod.rs lines 152-170): either a
buffer slice with its format and a per-instance flag, or a phantom marker with
a length and a per-instance flag. -/
inductive VerticesSource where
  | VertexBuffer (buffer : BufferAnySlice) (format : VertexFormat) (per_instance : Bool)
  | Marker (len : Nat) (per_instance : Bool)
deriving DecidableEq

/-- Embeds `struct EmptyVertexAttributes` (line 173): a marker holding a
number of phantom vertices. -/
structure EmptyVertexAttributes where
  len : Nat
deriving DecidableEq

/-- Embeds `struct EmptyInstanceAttributes` (line 186): a marker holding a
number of phantom instances. -/
structure EmptyInstanceAttributes where
  len : Nat
deriving DecidableEq

/-- Embeds `struct PerInstance` (line 199): a buffer slice plus a format,
marking the buffer as advancing per instance. -/
structure PerInstance where
  buffer : BufferAnySlice
  format : VertexFormat
deriving DecidableEq

/-- Embeds `impl Into<VerticesSource> for EmptyVertexAttributes`
(lines 178-183): yields a Marker with the same len and per_instance false. -/
def EmptyVertexAttributes.into (e : EmptyVertexAttributes) : VerticesSource :=
  VerticesSource.Marker e.len false

/-- Embeds `impl Into<VerticesSource> for EmptyInstanceAttributes`
(lines 191-196): yields a Marker with the same len and per_instance true. -/
def EmptyInstanceAttributes.into (e : EmptyInstanceAttributes) : VerticesSource :=
  VerticesSource.Marker e.len true

/-- Embeds `impl Into<VerticesSource> for PerInstance` (lines 201-206):
yields VertexBuffer with the same slice and format and per_instance true. -/
def PerInstance.into (p : PerInstance) : VerticesSource :=
  VerticesSource.VertexBuffer p.buffer p.format true

/-- Modelled from the spec: the conversion of a plain buffer reference into a
`VerticesSource` lives in src/vertex/buffer.rs, not part of the sources; per
the spec (section 4.3), a plain buffer reference converts to the buffer-backed
variant with the per_instance flag false, using the cached format of the type. -/
def bufferRefInto (buf : BufferAnySlice) (format : VertexFormat) : VerticesSource :=
  VerticesSource.VertexBuffer buf format false

/-- Closed sum of the value kinds convertible into a `VerticesSource` that the
module works with: a plain buffer reference (conversion modelled from the
spec), a `PerInstance` wrapper, and the two phantom markers.  Each case
carries the data of the corresponding Rust type. -/
inductive Source where
  | bufferRef (buf : BufferAnySlice) (format : VertexFormat)
  | perInstance (p : PerInstance)
  | emptyVertex (e : EmptyVertexAttributes)
  | emptyInstance (e : EmptyInstanceAttributes)
deriving DecidableEq

/-- Dispatches the `Into<VerticesSource>` conversion of each convertible kind. -/
def Source.into : Source → VerticesSource
  | Source.bufferRef buf format => bufferRefInto buf format
  | Source.perInstance p => p.into
  | Source.emptyVertex e => e.into
  | Source.emptyInstance e => e.into

/-- Embeds `impl MultiVerticesSource for T where T: Into<VerticesSource>`
(lines 217-226): `Some(self.into()).into_iter()`, the one-element iterator of
the converted source. -/
def iterSingle (a : Source) : List VerticesSource :=
  (some a.into).toList

/-- Embeds the arity-1 expansion of `impl_for_tuple` (lines 229-240):
`Some(self.0.into()).into_iter()`. -/
def iterTuple1 (a : Source) : List VerticesSource :=
  (some a.into).toList

/-- Embeds the arity-2 expansion of `impl_for_tuple` (lines 242-260):
`Some(t1.into()).into_iter().chain((t2,).iter())`. -/
def iterTuple2 (a b : Source) : List VerticesSource :=
  (some a.into).toList ++ iterTuple1 b

/-- Embeds the arity-3 expansion of `impl_for_tuple` (lines 262-280):
the head converted, chained with the iterator of the tail tuple. -/
def iterTuple3 (a b c : Source) : List VerticesSource :=
  (some a.into).toList ++ iterTuple2 b c

/-- Embeds the arity-4 expansion of `impl_for_tuple`. -/
def iterTuple4 (a b c d : Source) : List VerticesSource :=
  (some a.into).toList ++ iterTuple3 b c d

/-- Embeds the arity-5 expansion of `impl_for_tuple`. -/
def iterTuple5 (a b c d e : Source) : List VerticesSource :=
  (some a.into).toList ++ iterTuple4 b c d e

/-- Embeds the arity-6 expansion of `impl_for_tuple`. -/
def iterTuple6 (a b c d e f : Source) : List VerticesSource :=
  (some a.into).toList ++ iterTuple5 b c d e f

/-- Embeds the arity-7 expansion of `impl_for_tuple`, the outermost one
generated by `impl_for_tuple!(A, B, C, D, E, F, G)` (line 283). -/
def iterTuple7 (a b c d e f g : Source) : List VerticesSource :=
  (some a.into).toList ++ iterTuple6 b c d e f g

/-- Models the recursive expansion of `impl_for_tuple!` (lines 228-283): a
call with n type parameters generates the implementation for the n-tuple and
recurses on the remaining n-1 parameters, so it yields the set of tuple
arities that receive a `MultiVerticesSource` implementation. -/
def implForTupleArities : Nat → List Nat
  | 0 => []
  | n + 1 => (n + 1) :: implForTupleArities n

/-- The macro is invoked once, with the seven parameters A..G (line 283). -/
def multiVerticesSourceTupleArities : List Nat :=
  implForTupleArities 7

/-- Embeds the trait `Vertex` (lines 290-306) as the data a concrete vertex
type supplies: its `build_bindings` format. -/
structure Vertex where
  build_bindings : VertexFormat

/-- Embeds the loop body of `Vertex::is_supported` (lines 298-302): walk the
format in order and return false at the first attribute whose type is not
supported; reaching the end returns true. -/
def allBindingsSupported (caps : Caps) : List AttributeBinding → Bool
  | [] => true
  | b :: rest =>
    if b.ty.is_supported caps then allBindingsSupported caps rest else false

/-- Embeds the default method `Vertex::is_supported` (lines 295-305): builds
the bindings of the type and checks every attribute type against the
capability source. -/
def Vertex.is_supported (v : Vertex) (caps : Caps) : Bool :=
  allBindingsSupported caps v.build_bindings

/-- Embeds the trait `Attribute` (lines 309-317) as the data a concrete
attribute type supplies: its `get_type` result. -/
structure Attribute where
  get_type : AttributeType

/-- Embeds the default method `Attribute::is_supported` (lines 314-317):
`Self::get_type().is_supported(caps)`. -/
def Attribute.is_supported (a : Attribute) (caps : Caps) : Bool :=
  a.get_type.is_supported caps

/-- Modelled from the spec: the draw-time error conditions named by the module
documentation (lines 117-121); the `DrawError` enumeration itself lives
outside the sources.  Only the variants the claims mention are modelled. -/
inductive DrawError where
  | VerticesSourcesLengthMismatch
  | InstancesCountMismatch
  | TransformFeedbackProgramMismatch
deriving DecidableEq

/-- Length contribution of a source: a buffer-backed source contributes the
element count of its slice, a marker contributes its declared len. -/
def VerticesSource.sourceLen : VerticesSource → Nat
  | VerticesSource.VertexBuffer buf _ _ => buf.elements_count
  | VerticesSource.Marker l _ => l

/-- Reads the per-instance flag of either variant. -/
def VerticesSource.perInstanceFlag : VerticesSource → Bool
  | VerticesSource.VertexBuffer _ _ pi => pi
  | VerticesSource.Marker _ pi => pi

/-- Tests whether every element of the list equals the head. -/
def allEqualNat : List Nat → Bool
  | [] => true
  | n :: rest => rest.all fun m => m == n

/-- Counts reported by the per-instance sources of a composed sequence. -/
def instanceCounts (ss : List VerticesSource) : List Nat :=
  (ss.filter fun s => s.perInstanceFlag).map VerticesSource.sourceLen

/-- Counts reported by the per-vertex sources of a composed sequence. -/
def vertexCounts (ss : List VerticesSource) : List Nat :=
  (ss.filter fun s => !s.perInstanceFlag).map VerticesSource.sourceLen

/-- Modelled from the spec: the draw-time consistency check over a composed
source sequence is performed by the external draw-call issuer (module
documentation lines 117-121, spec section 4.4), whose code is not part of the
sources.  Per the spec, the per-instance count check applies in all
situations, while the per-vertex length check applies only when indices are
absent. -/
def checkDraw (ss : List VerticesSource) (indicesPresent : Bool) : Except DrawError Unit :=
  if allEqualNat (instanceCounts ss) then
    if indicesPresent || allEqualNat (vertexCounts ss) then
      Except.ok ()
    else
      Except.error DrawError.VerticesSourcesLengthMismatch
  else
    Except.error DrawError.InstancesCountMismatch

/-- Modelled from the spec: the program abstraction is an external
collaborator identified by an opaque identity comparable for equality
(spec section 6). -/
structure Program where
  id : Nat
deriving DecidableEq

/-- Modelled from the spec: `TransformFeedbackSession` is declared in
src/vertex/transform_feedback.rs, which is not part of the sources; per the
spec (section 4.5) it binds the target buffer and the exact program identity
it was created against. -/
structure TransformFeedbackSession where
  buffer : BufferAnySlice
  program : Program
deriving DecidableEq

/-- Modelled from the spec: creating a session binds the given buffer and
program (spec section 4.5). -/
def TransformFeedbackSession.new (buf : BufferAnySlice) (prog : Program) :
    TransformFeedbackSession :=
  TransformFeedbackSession.mk buf prog

/-- Modelled from the spec: a draw call referencing an active session must use
the identical program the session was created with; a mismatched program at
draw time fails with the program-mismatch error, never a silent no-op (module
documentation lines 128-133, spec section 4.5). -/
def drawWithSession (session : TransformFeedbackSession) (prog : Program) :
    Except DrawError Unit :=
  if prog = session.program then
    Except.ok ()
  else
    Except.error DrawError.TransformFeedbackProgramMismatch

/-! ## Helper lemmas -/

/-- The early-return loop of `Vertex::is_supported` returns true exactly when
every binding in the list has a supported type. -/
theorem allBindingsSupported_eq_true_iff (caps : Caps) (l : List AttributeBinding) :
    allBindingsSupported caps l = true ↔
      ∀ b ∈ l, b.ty.is_supported caps = true := by
  induction l with
  | nil => simp [allBindingsSupported]
  | cons b rest ih =>
    by_cases h : b.ty.is_supported caps = true
    · simp [allBindingsSupported, h, ih]
    · simp only [allBindingsSupported, h, if_false, Bool.false_eq_true, false_iff]
      intro hc
      exact h (hc b (List.mem_cons_self b rest))

/-! ## Claims -/

/-- C1: composing a tuple of N sources (1 <= N <= 7), and composing a single
source, yields exactly the list of the N converted sources in the order
supplied, with no reordering, deduplication, interleaving or validation. -/
theorem composition_preserves_order
    (a b c d e f g : Source) :
    iterSingle a = [a.into] ∧
    iterTuple1 a = [a.into] ∧
    iterTuple2 a b = [a.into, b.into] ∧
    iterTuple3 a b c = [a.into, b.into, c.into] ∧
    iterTuple4 a b c d = [a.into, b.into, c.into, d.into] ∧
    iterTuple5 a b c d e = [a.into, b.into, c.into, d.into, e.into] ∧
    iterTuple6 a b c d e f = [a.into, b.into, c.into, d.into, e.into, f.into] ∧
    iterTuple7 a b c d e f g =
      [a.into, b.into, c.into, d.into, e.into, f.into, g.into] := by
  refine ⟨rfl, rfl, rfl, rfl, rfl, rfl, rfl, rfl⟩

/-- C2: `Vertex::is_supported(C)` returns true if and only if every attribute
type appearing in the build_bindings format is individually supported by C;
one unsupported attribute makes the result false. -/
theorem vertex_is_supported_iff (v : Vertex) (caps : Caps) :
    v.is_supported caps = true ↔
      ∀ b ∈ v.build_bindings, b.ty.is_supported caps = true := by
  exact allBindingsSupported_eq_true_iff caps v.build_bindings

/-- C3: the draw-time checks are asymmetric: the instance-count check applies
in all situations (indices present or not), while the vertex-length check
applies only when indices are absent; each failure yields its named error. -/
theorem draw_checks_asymmetry (ss : List VerticesSource) (indicesPresent : Bool) :
    (checkDraw ss indicesPresent = Except.error DrawError.InstancesCountMismatch ↔
      allEqualNat (instanceCounts ss) = false) ∧
    (checkDraw ss indicesPresent = Except.error DrawError.VerticesSourcesLengthMismatch ↔
      allEqualNat (instanceCounts ss) = true ∧ indicesPresent = false ∧
        allEqualNat (vertexCounts ss) = false) ∧
    (checkDraw ss indicesPresent = Except.ok () ↔
      allEqualNat (instanceCounts ss) = true ∧
        (indicesPresent = true ∨ allEqualNat (vertexCounts ss) = true)) := by
  cases hi : allEqualNat (instanceCounts ss) <;>
    cases indicesPresent <;>
    cases hv : allEqualNat (vertexCounts ss) <;>
    simp [checkDraw, hi, hv]

/-- C4: converting a plain buffer reference yields the buffer-backed variant
with per_instance false; converting the same buffer wrapped as PerInstance
yields the buffer-backed variant with per_instance true; the slice and format
fields are unchanged and no other field differs. -/
theorem buffer_conversion_per_instance_flag (buf : BufferAnySlice) (format : VertexFormat) :
    bufferRefInto buf format = VerticesSource.VertexBuffer buf format false ∧
    (PerInstance.mk buf format).into = VerticesSource.VertexBuffer buf format true := by
  exact ⟨rfl, rfl⟩

/-- C5: composing a single convertible value and composing the one-element
tuple of that value produce equal sequences. -/
theorem single_eq_one_tuple (a : Source) :
    iterSingle a = iterTuple1 a := by
  rfl

/-- C6: for every len, `EmptyVertexAttributes { len }` converts to
`Marker { len, per_instance: false }` and `EmptyInstanceAttributes { len }`
converts to `Marker { len, per_instance: true }`; both conversions are total
and preserve len exactly. -/
theorem empty_attributes_conversion (len : Nat) :
    (EmptyVertexAttributes.mk len).into = VerticesSource.Marker len false ∧
    (EmptyInstanceAttributes.mk len).into = VerticesSource.Marker len true := by
  exact ⟨rfl, rfl⟩

/-- C7: a draw call referencing a session created with program P succeeds with
P itself and fails with the program-mismatch error for every program Q whose
identity differs from P. -/
theorem transform_feedback_program_identity
    (buf : BufferAnySlice) (P Q : Program) :
    (drawWithSession (TransformFeedbackSession.new buf P) P = Except.ok ()) ∧
    (drawWithSession (TransformFeedbackSession.new buf P) Q =
        Except.error DrawError.TransformFeedbackProgramMismatch ↔ Q ≠ P) := by
  constructor
  · simp [drawWithSession, TransformFeedbackSession.new]
  · by_cases h : Q = P <;>
      simp [drawWithSession, TransformFeedbackSession.new, h]

/-- C8: the default `Attribute::is_supported(C)` returns exactly
`AttributeType::is_supported` applied to the result of get_type and C; it is a
pure function of those two inputs alone. -/
theorem attribute_is_supported_delegates (a : Attribute) (caps : Caps) :
    a.is_supported caps = a.get_type.is_supported caps := by
  rfl

/-- C9: the tuple arities given a `MultiVerticesSource` implementation by the
expansion of `impl_for_tuple!(A, B, C, D, E, F, G)` are exactly 1 through 7;
in particular no implementation is generated for arity 8 or more. -/
theorem tuple_arities_exactly_one_to_seven (n : Nat) :
    n ∈ multiVerticesSourceTupleArities ↔ 1 ≤ n ∧ n ≤ 7 := by
  simp [multiVerticesSourceTupleArities, implForTupleArities]
  omega

/-- C10: a vertex type whose build_bindings format is empty is reported as
supported by every capability set: the all-attributes-supported condition
holds vacuously. -/
theorem empty_format_always_supported (v : Vertex) (caps : Caps)
    (h : v.build_bindings = []) :
    v.is_supported caps = true := by
  simp [Vertex.is_supported, h, allBindingsSupported]

/-- Witness for C10: the theorem applied to a concrete vertex type with an
empty format and a concrete capability set that supports nothing. -/
theorem empty_format_always_supported_witness :
    (Vertex.mk []).is_supported (Caps.mk fun _ => false) = true :=
  empty_format_always_supported (Vertex.mk []) (Caps.mk fun _ => false) rfl

end Glium
